import Mathlib

/-!
Shallow embedding of the DebateMaster BP front-end core (src/App.tsx):
the analyze request/response data model, the simulated analyzer
(`mockAnalyze`), the remote analyzer (`cloudAnalyze`), the analysis
adapter (`useAnalysisAdapter`), the practice controller (timer and
submit), and the top-level screen state machine (`App`).

Pseudo-random draws of the simulated analyzer are modelled as explicit
parameters carrying the range that `Math.floor(Math.random()*k)` has in
JavaScript (a value in `Fin k`).  The effectful `fetch` call of the
remote analyzer is modelled by an explicit `FetchOutcome` describing
what the network did; the remote analyzer is then a pure function of
that outcome.  JavaScript falsiness on optional strings (`x || d`) and
on numbers (`n || d`) is modelled by explicit helper functions.
-/

namespace DebateMaster

/-- British Parliamentary side, as in `type BpSide` of the source. -/
inductive BpSide where
  | OG | OO | CG | CO
deriving DecidableEq, Repr

/-- The `AnalyzeRequest` shape of the source.  Optional fields are `Option`;
`durationSec` is a non-negative integer. -/
structure AnalyzeRequest where
  sessionId : String
  motion : String
  side : BpSide
  durationSec : Nat
  gcsUri : Option String
  audioBlobUrl : Option String
  uid : Option String
deriving DecidableEq, Repr

/-- Response status, as in the source union `'scored'|'failed'|'queued'`. -/
inductive RespStatus where
  | scored | failed | queued
deriving DecidableEq, Repr

/-- Timing status, as in the source union `'ok'|'undertime'|'overtime'`. -/
inductive TimingStatus where
  | ok | undertime | overtime
deriving DecidableEq, Repr

/-- The nested `scores` record of an `AnalyzeResponse`. -/
structure Scores where
  matter : Nat
  manner : Nat
  method : Nat
  total : Nat
deriving DecidableEq, Repr

/-- Delivery metrics.  `fillerCenti` holds `fillerPerMin` in hundredths,
since the source rounds it to two decimal places. -/
structure Delivery where
  wpm : Nat
  fillerCenti : Nat
deriving DecidableEq, Repr

/-- Timing block of an `AnalyzeResponse`. -/
structure Timing where
  status : TimingStatus
  notes : Option String
deriving DecidableEq, Repr

/-- One actionable feedback item. -/
structure Actionable where
  title : String
  why : String
  how : String
deriving DecidableEq, Repr

/-- One drill item. -/
structure Drill where
  name : String
  instructions : String
deriving DecidableEq, Repr

/-- Per-category justification lists. -/
structure Justification where
  matter : List String
  manner : List String
  method : List String
deriving DecidableEq, Repr

/-- Feedback block of an `AnalyzeResponse`. -/
structure Feedback where
  justification : Justification
  actionables : List Actionable
  drills : List Drill
deriving DecidableEq, Repr

/-- The `AnalyzeResponse` shape of the source. -/
structure AnalyzeResponse where
  status : RespStatus
  sessionId : String
  transcript : String
  scores : Scores
  delivery : Delivery
  timing : Timing
  feedback : Feedback
  rubricVersion : String
deriving DecidableEq, Repr

/-- The pseudo-random draws consumed by one `mockAnalyze` call.
`matterR`, `mannerR`, `methodR` model `Math.floor(Math.random()*10)`
(respectively `*10`, `*8`); `wpmR` models the rounded offset of
`Math.round(120 + Math.random()*80)` over 120; `fillerCentiR` models
`+(Math.random()*2).toFixed(2)` in hundredths. -/
structure MockRand where
  matterR : Fin 10
  mannerR : Fin 10
  methodR : Fin 8
  wpmR : Fin 81
  fillerCentiR : Fin 201
deriving DecidableEq, Repr

/-- The fixed transcript returned by the simulated analyzer. -/
def mockTranscript : String :=
  "Thank you, chair. Our bench advances two arguments on harm reduction and democratic accountability..."

/-- The timing classification of line 42 of the source:
`req.durationSec < 390 ? undertime : req.durationSec > 435 ? overtime : ok`. -/
def timingStatusOf (durationSec : Nat) : TimingStatus :=
  if durationSec < 390 then .undertime
  else if durationSec > 435 then .overtime
  else .ok

/-- The simulated analyzer `mockAnalyze` of the source, with the random
draws passed explicitly. -/
def mockAnalyze (r : MockRand) (req : AnalyzeRequest) : AnalyzeResponse :=
  let matter := 24 + r.matterR.val
  let manner := 22 + r.mannerR.val
  let method := 12 + r.methodR.val
  let total := matter + manner + method
  { status := .scored
    sessionId := req.sessionId
    transcript := mockTranscript
    scores := { matter := matter, manner := manner, method := method, total := total }
    delivery := { wpm := 120 + r.wpmR.val, fillerCenti := r.fillerCentiR.val }
    timing := { status := timingStatusOf req.durationSec, notes := none }
    feedback :=
      { justification :=
          { matter := ["Clear claim structure", "Could deepen comparative weighing"]
            manner := ["Good clarity", "Signposting can be sharper"]
            method := ["Role mostly fulfilled", "Timing close to limit"] }
        actionables :=
          [ { title := "Sharper signposting", why := "Judge navigation"
              how := "Label arguments & subpoints (A/B/C)" }
          , { title := "Frontload clash", why := "Directly engage opp"
              how := "Open with strongest refutation then rebuild" } ]
        drills :=
          [ { name := "60s signpost drill"
              instructions := "Open with roadmap; label arguments and subpoints clearly." }
          , { name := "Rebuttal ladder"
              instructions := "Write 3 attacks escalating in strength on the same claim." } ] }
    rubricVersion := "bp_v1.3" }

/-- JavaScript `v || dflt` on an optional string: the default is used when
the field is absent or the empty string (the only falsy string). -/
def jsOrString (v : Option String) (dflt : String) : String :=
  match v with
  | none => dflt
  | some s => if s = "" then dflt else s

/-- The JSON body that `cloudAnalyze` POSTs to the scoring endpoint. -/
structure CloudRequestBody where
  sessionId : String
  motion : String
  side : BpSide
  durationSec : Nat
  gcsUri : String
  uid : String
deriving DecidableEq, Repr

/-- The request body built by lines 73 to 80 of the source:
`gcsUri: req.gcsUri || ''` and `uid: req.uid || 'demo-user'`. -/
def cloudRequestBody (req : AnalyzeRequest) : CloudRequestBody :=
  { sessionId := req.sessionId
    motion := req.motion
    side := req.side
    durationSec := req.durationSec
    gcsUri := jsOrString req.gcsUri ""
    uid := jsOrString req.uid "demo-user" }

/-- The `scores` object as it may appear in a decoded remote body: every
field may be absent, since the shim copies possibly-undefined top-level
fields verbatim. -/
structure RawScores where
  matter : Option Int
  manner : Option Int
  method : Option Int
  total : Option Int
deriving DecidableEq, Repr

/-- A decoded remote response body.  Only the fields the source inspects
are distinguished (`scores` and the top-level matter/manner/method/total);
`status`, `sessionId` and `transcript` stand for the rest of the payload,
which `cloudAnalyze` passes through untouched. -/
structure RawBody where
  scores : Option RawScores
  matter : Option Int
  manner : Option Int
  method : Option Int
  total : Option Int
  status : Option String
  sessionId : Option String
  transcript : Option String
deriving DecidableEq, Repr

/-- What the `fetch` call did: the promise rejected (network error), or a
response arrived with an HTTP status code and a body that either decodes
to a `RawBody` or fails to decode (`none`). -/
inductive FetchOutcome where
  | netError
  | response (status : Nat) (body : Option RawBody)
deriving DecidableEq, Repr

/-- The `Response.ok` flag of the Fetch API: status in the range 200 to 299. -/
def responseOk (status : Nat) : Bool :=
  decide (200 ≤ status ∧ status < 300)

/-- The normalization shim of lines 84 to 86:
`if (!data.scores && data.matter !== undefined) data.scores = ...`.
A present `scores` object is always truthy, so the branch fires exactly
when `scores` is absent and `matter` is defined; the four fields are
copied verbatim, defined or not. -/
def normalizeBody (data : RawBody) : RawBody :=
  if data.scores = none ∧ data.matter ≠ none then
    { data with
      scores := some { matter := data.matter, manner := data.manner
                       method := data.method, total := data.total } }
  else data

/-- The remote analyzer `cloudAnalyze` of the source, as a pure function
of the fetch outcome: a rejected fetch propagates as an error, a
non-ok status throws `Cloud analyze failed: <status>`, an undecodable
body propagates the decode error, and a decoded body is returned after
the normalization shim. -/
def cloudAnalyze (outcome : FetchOutcome) : Except String RawBody :=
  match outcome with
  | .netError => .error "TypeError: Failed to fetch"
  | .response status body =>
    if responseOk status = false then
      .error ("Cloud analyze failed: " ++ toString status)
    else
      match body with
      | none => .error "SyntaxError: Unexpected token in JSON"
      | some data => .ok (normalizeBody data)

/-- Adapter mode, as in the source union `'mock'|'cloud'`. -/
inductive Mode where
  | mock | cloud
deriving DecidableEq, Repr

/-- The source constant `DEFAULT_MODE = 'cloud'`. -/
def DEFAULT_MODE : Mode := .cloud

/-- What the adapter hands its caller: a remote body (cast to
`AnalyzeResponse` by the source) or a simulated response. -/
inductive AdapterResult where
  | fromCloud (data : RawBody)
  | fromMock (resp : AnalyzeResponse)
deriving DecidableEq, Repr

/-- The `analyze` closure of `useAnalysisAdapter`: in cloud mode try the
remote analyzer and on any error fall back to the simulated analyzer for
the same request; in mock mode use the simulated analyzer directly. -/
def analyze (mode : Mode) (outcome : FetchOutcome) (r : MockRand)
    (req : AnalyzeRequest) : AdapterResult :=
  match mode with
  | .cloud =>
    match cloudAnalyze outcome with
    | .ok data => .fromCloud data
    | .error _ => .fromMock (mockAnalyze r req)
  | .mock => .fromMock (mockAnalyze r req)

/-- Local state of the `Practice` component: motion text, side, the
recording flag, the whole-second counter, whether the interval timer is
live (`timerRef`), the loading flag and the inline error message. -/
structure PracticeState where
  motionTxt : String
  side : BpSide
  isRecording : Bool
  seconds : Nat
  timerRunning : Bool
  loading : Bool
  errorMsg : String
deriving DecidableEq, Repr

/-- Initial `Practice` state, from the `useState` initializers. -/
def initPractice : PracticeState :=
  { motionTxt := "This House would ban targeted political advertising on social media."
    side := .OG
    isRecording := false
    seconds := 0
    timerRunning := false
    loading := false
    errorMsg := "" }

/-- User and timer events the `Practice` component reacts to before the
submit: the Record button, the Stop button, one tick of the one-second
interval, and edits to the motion text and side selector. -/
inductive PEvent where
  | start
  | stop
  | tick
  | setMotion (s : String)
  | setSide (s : BpSide)
deriving DecidableEq, Repr

/-- One step of the `Practice` component.  The Record button is disabled
while recording and Stop is disabled while not recording, so those
events are no-ops in the corresponding states; `start` resets the
counter to zero and starts the interval; `stop` halts the interval
without resetting; `tick` adds one second while the interval is live. -/
def pstep (st : PracticeState) (e : PEvent) : PracticeState :=
  match e with
  | .start =>
    if st.isRecording then st
    else { st with isRecording := true, seconds := 0, timerRunning := true }
  | .stop =>
    if st.isRecording then { st with isRecording := false, timerRunning := false }
    else st
  | .tick =>
    if st.timerRunning then { st with seconds := st.seconds + 1 } else st
  | .setMotion s => { st with motionTxt := s }
  | .setSide s => { st with side := s }

/-- Run a trace of practice events from the initial state. -/
def runPractice (es : List PEvent) : PracticeState :=
  es.foldl pstep initPractice

/-- Whether the recording timer was ever started in a trace. -/
def timerEverRan (es : List PEvent) : Bool :=
  es.any (fun e => e = .start)

/-- The `AnalyzeRequest` built by `onAnalyzeClick` (line 225):
`durationSec: seconds || 420` falls back to 420 exactly when the counter
is zero (JavaScript falsiness on a number), `uid` is the literal
`demo-user`, and no audio reference is attached. -/
def buildReq (sid : String) (st : PracticeState) : AnalyzeRequest :=
  { sessionId := sid
    motion := st.motionTxt
    side := st.side
    durationSec := if st.seconds = 0 then 420 else st.seconds
    gcsUri := none
    audioBlobUrl := none
    uid := some "demo-user" }

/-- Screen type, as in the source union `'dashboard'|'practice'|'session'`. -/
inductive Screen where
  | dashboard | practice | session
deriving DecidableEq, Repr

/-- Top-level `App` state.  `appMode` is the mode held by the adapter
instance the `App` component creates (the one the header badge shows and
the Toggle button flips); `practiceMode` is the mode held by the separate
adapter instance the `Practice` component creates for its `analyze`
calls.  They are distinct pieces of state in the source because each
call of `useAnalysisAdapter` owns a fresh `useState`. -/
structure AppState where
  screen : Screen
  sessionId : String
  analysis : Option AdapterResult
  appMode : Mode
  practiceMode : Mode
deriving DecidableEq, Repr

/-- Initial `App` state: Dashboard screen, empty session, no analysis,
both adapter instances at `DEFAULT_MODE`. -/
def initApp : AppState :=
  { screen := .dashboard
    sessionId := ""
    analysis := none
    appMode := DEFAULT_MODE
    practiceMode := DEFAULT_MODE }

/-- Top-level events: the three header tabs, the Start Practice button
(rendered only on the Dashboard screen), the header mode Toggle, and a
completed submit from Practice (rendered only on the Practice screen),
carrying the generated session id, the practice state at the click, and
the environment of the resulting `analyze` call. -/
inductive AppEvent where
  | navDashboard
  | navPractice
  | navSession
  | clickStart
  | toggleMode
  | submit (sid : String) (ps : PracticeState) (outcome : FetchOutcome) (r : MockRand)
deriving Repr

/-- One step of the `App` component.  `toggleMode` flips the App adapter
instance (`setMode(mode==='cloud'?'mock':'cloud')`); a submit runs
`analyze` on the Practice adapter instance and then fires `onAnalyzed`,
which stores the session id and response and switches to Session. -/
def appStep (st : AppState) (e : AppEvent) : AppState :=
  match e with
  | .navDashboard => { st with screen := .dashboard }
  | .navPractice => { st with screen := .practice }
  | .navSession => { st with screen := .session }
  | .clickStart =>
    if st.screen = .dashboard then { st with screen := .practice } else st
  | .toggleMode =>
    { st with appMode := if st.appMode = .cloud then .mock else .cloud }
  | .submit sid ps outcome r =>
    if st.screen = .practice then
      { st with
        sessionId := sid
        analysis := some (analyze st.practiceMode outcome r (buildReq sid ps))
        screen := .session }
    else st

/-- A concrete draw of the simulated analyzer's random values. -/
def sampleRand : MockRand :=
  { matterR := 3, mannerR := 4, methodR := 2, wpmR := 10, fillerCentiR := 50 }

/-- A concrete request, as built by a default practice session. -/
def sampleReq : AnalyzeRequest :=
  { sessionId := "sess_ab12cd"
    motion := "This House would ban targeted political advertising on social media."
    side := .OG
    durationSec := 420
    gcsUri := none
    audioBlobUrl := none
    uid := some "demo-user" }

/-- Claim C1: for every request, the adapter's analyze never fails: in
cloud mode, whenever the remote analyzer errors for any reason, analyze
returns the simulated analyzer's result for the same request, and in
every case the caller receives either a remote or a simulated response. -/
theorem c1_adapter_total_fallback (outcome : FetchOutcome) (r : MockRand)
    (req : AnalyzeRequest) :
    ((∃ e, cloudAnalyze outcome = Except.error e) →
      analyze Mode.cloud outcome r req = AdapterResult.fromMock (mockAnalyze r req))
    ∧ ((∃ d, cloudAnalyze outcome = Except.ok d
          ∧ analyze Mode.cloud outcome r req = AdapterResult.fromCloud d)
       ∨ analyze Mode.cloud outcome r req = AdapterResult.fromMock (mockAnalyze r req)) := by
  constructor
  · rintro ⟨e, he⟩
    simp [analyze, he]
  · cases h : cloudAnalyze outcome with
    | ok d => exact Or.inl ⟨d, rfl, by simp [analyze, h]⟩
    | error e => exact Or.inr (by simp [analyze, h])

/-- Witness for C1 at a concrete failing outcome: a network error in
cloud mode yields exactly the simulated result. -/
theorem c1_witness :
    analyze Mode.cloud FetchOutcome.netError sampleRand sampleReq
      = AdapterResult.fromMock (mockAnalyze sampleRand sampleReq) :=
  (c1_adapter_total_fallback FetchOutcome.netError sampleRand sampleReq).1
    ⟨"TypeError: Failed to fetch", rfl⟩

/-- Claim C3: for every request and every outcome of the pseudo-random
draws, the simulated analyzer's scores satisfy matter between 24 and 33,
manner between 22 and 31, method between 12 and 19, and total equals
matter plus manner plus method exactly. -/
theorem c3_mock_scores_consistent (r : MockRand) (req : AnalyzeRequest) :
    24 ≤ (mockAnalyze r req).scores.matter ∧ (mockAnalyze r req).scores.matter ≤ 33
    ∧ 22 ≤ (mockAnalyze r req).scores.manner ∧ (mockAnalyze r req).scores.manner ≤ 31
    ∧ 12 ≤ (mockAnalyze r req).scores.method ∧ (mockAnalyze r req).scores.method ≤ 19
    ∧ (mockAnalyze r req).scores.total
        = (mockAnalyze r req).scores.matter + (mockAnalyze r req).scores.manner
            + (mockAnalyze r req).scores.method := by
  have h1 := r.matterR.isLt
  have h2 := r.mannerR.isLt
  have h3 := r.methodR.isLt
  refine ⟨?_, ?_, ?_, ?_, ?_, ?_, ?_⟩ <;> simp [mockAnalyze] <;> omega

set_option linter.unnecessarySeqFocus false in
/-- Claim C4: the simulated analyzer's timing status is a deterministic
function of the request duration: undertime exactly below 390 seconds,
overtime exactly above 435, ok otherwise, and in particular ok at the
boundary durations 390, 420 and 435. -/
theorem c4_timing_deterministic (r : MockRand) (req : AnalyzeRequest) :
    ((mockAnalyze r req).timing.status = TimingStatus.undertime ↔ req.durationSec < 390)
    ∧ ((mockAnalyze r req).timing.status = TimingStatus.overtime ↔ req.durationSec > 435)
    ∧ ((mockAnalyze r req).timing.status = TimingStatus.ok
        ↔ (390 ≤ req.durationSec ∧ req.durationSec ≤ 435))
    ∧ (mockAnalyze r { req with durationSec := 390 }).timing.status = TimingStatus.ok
    ∧ (mockAnalyze r { req with durationSec := 420 }).timing.status = TimingStatus.ok
    ∧ (mockAnalyze r { req with durationSec := 435 }).timing.status = TimingStatus.ok := by
  refine ⟨?_, ?_, ?_, rfl, rfl, rfl⟩ <;>
    simp only [mockAnalyze, timingStatusOf] <;>
    split_ifs <;> simp_all <;> omega

/-- Claim C8: the remote analyzer errors exactly when the remote call
does not succeed: every network error, every non-success status, and
every undecodable body gives an error, and only a success status with a
decoded body gives a response. -/
theorem c8_remote_fails_iff_not_success (outcome : FetchOutcome) :
    (∃ e, cloudAnalyze outcome = Except.error e)
      ↔ ¬ ∃ status data,
            outcome = FetchOutcome.response status (some data) ∧ responseOk status = true := by
  cases outcome with
  | netError => simp [cloudAnalyze]
  | response status body =>
    cases body with
    | none => cases h : responseOk status <;> simp [cloudAnalyze, h]
    | some data => cases h : responseOk status <;> simp [cloudAnalyze, h]

/-- Claim C9: the remote request body substitutes by falsiness: an empty
uid string (not merely an absent one) becomes the demo-user placeholder,
and an absent or empty gcsUri becomes the empty string. -/
theorem c9_falsy_substitution (req : AnalyzeRequest) :
    (req.uid = some "" → (cloudRequestBody req).uid = "demo-user")
    ∧ (req.gcsUri = none ∨ req.gcsUri = some "" → (cloudRequestBody req).gcsUri = "") := by
  constructor
  · intro h
    simp [cloudRequestBody, jsOrString, h]
  · rintro (h | h) <;> simp [cloudRequestBody, jsOrString, h]

/-- A request whose uid is present but empty and whose gcsUri is absent. -/
def c9Req1 : AnalyzeRequest := { sampleReq with uid := some "", gcsUri := none }

/-- A request whose uid and gcsUri are both present but empty. -/
def c9Req2 : AnalyzeRequest := { sampleReq with uid := some "", gcsUri := some "" }

/-- Witness for C9 at concrete requests: empty uid maps to demo-user,
absent and empty gcsUri both map to the empty string. -/
theorem c9_witness :
    (cloudRequestBody c9Req1).uid = "demo-user"
    ∧ (cloudRequestBody c9Req1).gcsUri = ""
    ∧ (cloudRequestBody c9Req2).gcsUri = "" :=
  ⟨(c9_falsy_substitution c9Req1).1 rfl,
   (c9_falsy_substitution c9Req1).2 (Or.inl rfl),
   (c9_falsy_substitution c9Req2).2 (Or.inr rfl)⟩

/-- Claim C5: after a successful decode, a body lacking a nested scores
object but carrying all four top-level score fields is returned with a
scores object synthesized from exactly those fields, and a body that
already has a scores object is returned unchanged. -/
theorem c5_normalize_shapes (d1 d2 : RawBody) (s : RawScores) (m mn me t : Int)
    (st1 st2 : Nat) (hok1 : responseOk st1 = true) (hok2 : responseOk st2 = true)
    (h0 : d1.scores = none) (hm : d1.matter = some m) (hmn : d1.manner = some mn)
    (hme : d1.method = some me) (ht : d1.total = some t)
    (hs : d2.scores = some s) :
    cloudAnalyze (FetchOutcome.response st1 (some d1))
      = Except.ok { d1 with
          scores := some { matter := some m, manner := some mn
                           method := some me, total := some t } }
    ∧ cloudAnalyze (FetchOutcome.response st2 (some d2)) = Except.ok d2 := by
  constructor
  · simp [cloudAnalyze, hok1, normalizeBody, h0, hm, hmn, hme, ht]
  · simp [cloudAnalyze, hok2, normalizeBody, hs]

/-- A flattened remote body: top-level score fields and no scores object. -/
def c5Body : RawBody :=
  { scores := none, matter := some 10, manner := some 5, method := some 3
    total := some 18, status := some "scored", sessionId := some "sess_ab12cd"
    transcript := some "Thank you, chair." }

/-- A remote body that already carries a nested scores object. -/
def c5Body2 : RawBody :=
  { scores := some { matter := some 30, manner := some 28, method := some 15, total := some 73 }
    matter := none, manner := none, method := none, total := none
    status := some "scored", sessionId := some "sess_ab12cd"
    transcript := some "Thank you, chair." }

/-- Witness for C5 at the concrete bodies of the claim: top-level fields
10, 5, 3, 18 become the scores object, and a nested body is unchanged. -/
theorem c5_witness :
    cloudAnalyze (FetchOutcome.response 200 (some c5Body))
      = Except.ok { c5Body with
          scores := some { matter := some 10, manner := some 5
                           method := some 3, total := some 18 } }
    ∧ cloudAnalyze (FetchOutcome.response 200 (some c5Body2)) = Except.ok c5Body2 :=
  c5_normalize_shapes c5Body c5Body2
    { matter := some 30, manner := some 28, method := some 15, total := some 73 }
    10 5 3 18 200 200 rfl rfl rfl rfl rfl rfl rfl rfl

/-- A flattened remote body carrying only a matter field. -/
def c10Body : RawBody :=
  { scores := none, matter := some 10, manner := none, method := none
    total := none, status := some "scored", sessionId := some "sess_ab12cd"
    transcript := some "Thank you, chair." }

/-- Claim C10: the normalization shim fires whenever scores is absent and
matter is defined, even when manner, method or total are absent, and it
copies the four top-level fields verbatim without re-deriving total; on
the concrete matter-only body the returned scores object has matter 10
and an undefined total (not the sum of the parts). -/
theorem c10_shim_copies_verbatim (data : RawBody) (m : Int)
    (h0 : data.scores = none) (hm : data.matter = some m) :
    (normalizeBody data).scores
      = some { matter := some m, manner := data.manner
               method := data.method, total := data.total }
    ∧ cloudAnalyze (FetchOutcome.response 200 (some c10Body))
      = Except.ok { c10Body with
          scores := some { matter := some (10 : Int), manner := none
                           method := none, total := none } } := by
  constructor
  · simp [normalizeBody, h0, hm]
  · rfl

/-- Witness for C10 at the matter-only body. -/
theorem c10_witness :
    (normalizeBody c10Body).scores
      = some { matter := some (10 : Int), manner := none, method := none, total := none } :=
  (c10_shim_copies_verbatim c10Body 10 rfl rfl).1

/-- Claim C6: the initial screen is the Dashboard; from any Dashboard
state, start practice activates the Practice screen; from any Practice
state, a completed analysis activates the Session screen carrying the
freshly generated session id, the produced adapter response for the
request built with that id, and the request itself echoes that id. -/
theorem c6_screen_transitions (st st' : AppState) (sid : String) (ps : PracticeState)
    (outcome : FetchOutcome) (r : MockRand)
    (hd : st.screen = Screen.dashboard) (hp : st'.screen = Screen.practice) :
    initApp.screen = Screen.dashboard
    ∧ (appStep st AppEvent.clickStart).screen = Screen.practice
    ∧ (appStep st' (AppEvent.submit sid ps outcome r)).screen = Screen.session
    ∧ (appStep st' (AppEvent.submit sid ps outcome r)).sessionId = sid
    ∧ (appStep st' (AppEvent.submit sid ps outcome r)).analysis
        = some (analyze st'.practiceMode outcome r (buildReq sid ps))
    ∧ (buildReq sid ps).sessionId = sid := by
  refine ⟨rfl, ?_, ?_, ?_, ?_, rfl⟩ <;> simp [appStep, hd, hp]

/-- Witness for C6 on the concrete run: Dashboard, click start, submit. -/
theorem c6_witness :
    (appStep initApp AppEvent.clickStart).screen = Screen.practice
    ∧ (appStep (appStep initApp AppEvent.clickStart)
        (AppEvent.submit "sess_ab12cd" initPractice FetchOutcome.netError sampleRand)).screen
      = Screen.session
    ∧ (appStep (appStep initApp AppEvent.clickStart)
        (AppEvent.submit "sess_ab12cd" initPractice FetchOutcome.netError sampleRand)).sessionId
      = "sess_ab12cd" :=
  have h := c6_screen_transitions initApp (appStep initApp AppEvent.clickStart)
    "sess_ab12cd" initPractice FetchOutcome.netError sampleRand rfl rfl
  ⟨h.2.1, h.2.2.1, h.2.2.2.1⟩

/-- If the Record button is never pressed in a trace, the second counter
stays at zero: ticks only count while the interval started by Record is
live, and only Record makes it live. -/
theorem seconds_zero_of_no_start (es : List PEvent) (st : PracticeState)
    (h : timerEverRan es = false) (hs : st.seconds = 0) (hr : st.timerRunning = false) :
    (es.foldl pstep st).seconds = 0 := by
  induction es generalizing st with
  | nil => simpa using hs
  | cons e es ih =>
    simp only [timerEverRan, List.any_cons, Bool.or_eq_false_iff] at h
    obtain ⟨h1, h2⟩ := h
    have hne : e ≠ PEvent.start := by simpa using h1
    have hkeep : (pstep st e).seconds = 0 ∧ (pstep st e).timerRunning = false := by
      cases e with
      | start => exact absurd rfl hne
      | stop => by_cases hrec : st.isRecording <;> simp [pstep, hrec, hs, hr]
      | tick => simp [pstep, hr, hs]
      | setMotion s => simp [pstep, hs, hr]
      | setSide s => simp [pstep, hs, hr]
    simpa using ih (pstep st e) h2 hkeep.1 hkeep.2

/-- Claim C7 counterexample: in the trace where the user presses Record
and then Stop before the first one-second tick, the timer ran, the
elapsed value is zero, yet the submitted durationSec is the 420
fallback and not the elapsed timer value. -/
theorem c7_counterexample :
    timerEverRan [PEvent.start, PEvent.stop] = true
    ∧ (runPractice [PEvent.start, PEvent.stop]).seconds = 0
    ∧ (buildReq "sess_ab12cd" (runPractice [PEvent.start, PEvent.stop])).durationSec = 420
    ∧ (buildReq "sess_ab12cd" (runPractice [PEvent.start, PEvent.stop])).durationSec
        ≠ (runPractice [PEvent.start, PEvent.stop]).seconds := by
  refine ⟨rfl, rfl, rfl, ?_⟩
  decide

/-- Claim C7 as amended: the submitted request carries the generated
session id, the current motion text, the selected side and the fixed
demo uid, and its durationSec is the elapsed whole-second count with a
fallback to 420 exactly when that count is zero; in particular the
fallback applies whenever the timer never ran. -/
theorem c7_submit_request (sid : String) (es : List PEvent) :
    (buildReq sid (runPractice es)).durationSec
        = (if (runPractice es).seconds = 0 then 420 else (runPractice es).seconds)
    ∧ (timerEverRan es = false → (buildReq sid (runPractice es)).durationSec = 420)
    ∧ (buildReq sid (runPractice es)).sessionId = sid
    ∧ (buildReq sid (runPractice es)).motion = (runPractice es).motionTxt
    ∧ (buildReq sid (runPractice es)).side = (runPractice es).side
    ∧ (buildReq sid (runPractice es)).uid = some "demo-user" := by
  refine ⟨rfl, ?_, rfl, rfl, rfl, rfl⟩
  intro h
  have h0 : (runPractice es).seconds = 0 :=
    seconds_zero_of_no_start es initPractice h rfl rfl
  simp [buildReq, h0]

/-- Witness for C7 as amended, on the empty trace: the timer never ran
and the submitted duration is the 420 fallback. -/
theorem c7_witness :
    (buildReq "sess_ab12cd" (runPractice [])).durationSec = 420
    ∧ (buildReq "sess_ab12cd" (runPractice [])).sessionId = "sess_ab12cd" :=
  ⟨(c7_submit_request "sess_ab12cd" []).2.1 rfl,
   (c7_submit_request "sess_ab12cd" []).2.2.1⟩

/-- A successful remote body used to show which analyzer a submit hits. -/
def c2Body : RawBody :=
  { scores := some { matter := some 31, manner := some 27, method := some 16, total := some 74 }
    matter := none, manner := none, method := none, total := none
    status := some "scored", sessionId := some "sess_ab12cd"
    transcript := some "Thank you, chair." }

/-- Claim C2 on the code as written: after the user flips the header
toggle (the badge now shows the simulated mode), a submit from Practice
still takes the remote path and stores a remote result, because the
Practice component holds its own adapter instance whose mode is the
default cloud mode and the toggle only flips the App instance. -/
theorem c2_toggle_not_seen_by_practice :
    (appStep initApp AppEvent.toggleMode).appMode = Mode.mock
    ∧ (appStep initApp AppEvent.toggleMode).practiceMode = Mode.cloud
    ∧ (appStep (appStep (appStep initApp AppEvent.toggleMode) AppEvent.clickStart)
         (AppEvent.submit "sess_ab12cd" initPractice
            (FetchOutcome.response 200 (some c2Body)) sampleRand)).analysis
        = some (AdapterResult.fromCloud c2Body) :=
  ⟨rfl, rfl, rfl⟩

end DebateMaster
